import Mathlib

/-
  Verification development for the QCoDeS instrument drivers
  (Rigol DS4000 oscilloscope, Zurich Instruments UHF scope and lock-ins).

  The relevant driver routines are shallowly embedded: the device on the
  other end of the wire is modelled as an oracle (functions from query
  indices to replies), Python exceptions become an explicit error type,
  machine floats become exact rationals (ℚ) or reals (ℝ) where irrational
  conversion constants appear, and the poll/retry loops become fueled
  recursive functions.  Every definition is annotated with the source
  file and lines it is translated from.
-/

set_option linter.unusedVariables false

namespace QcodesDrivers

/-- Model of the Python exceptions raised by the embedded code paths. -/
inductive PyErr where
  | valueError (msg : String)
  | typeError
  | keyError
  | attributeError
  | nameError
  | indexError
  | runtimeError
  | notImplError
  deriving DecidableEq, Repr

/-- Decidable equality for Except results, so closed evaluations can use decide. -/
def exceptDecEq {ε α : Type} [DecidableEq ε] [DecidableEq α] :
    (a b : Except ε α) → Decidable (a = b)
  | .error a, .error b =>
      if h : a = b then .isTrue (by rw [h])
      else .isFalse (by intro hh; cases hh; exact h rfl)
  | .error _, .ok _ => .isFalse (by intro hh; cases hh)
  | .ok _, .error _ => .isFalse (by intro hh; cases hh)
  | .ok a, .ok b =>
      if h : a = b then .isTrue (by rw [h])
      else .isFalse (by intro hh; cases hh; exact h rfl)

instance {ε α : Type} [DecidableEq ε] [DecidableEq α] : DecidableEq (Except ε α) :=
  exceptDecEq

/-- True exactly on successful results. -/
def exceptIsOk {ε α : Type} : Except ε α → Bool
  | .ok _ => true
  | .error _ => false

/-! ## Rigol DS4000 (src/qcodes/instrument_drivers/rigol/DS4000.py)

The VISA device is an oracle: `statuses k` is the reply to the k-th
`:WAV:STAT?` query of a raw read loop, `chunks k` the bytes of the k-th
`visa_handle.read_raw()` in that loop, `normChunk` the bytes read in the
non-raw branch and `preambleFields` the numeric fields of the
`:WAV:PRE?` reply (the string-to-number conversion `int if isdigit else
float` is abstracted to the numeric value of each comma-separated token).
-/

structure RigolDevice where
  statuses : ℕ → String
  chunks : ℕ → List ℕ
  normChunk : List ℕ
  preambleFields : List ℚ

/-- Python bytes.strip(): drop ASCII whitespace from both ends. -/
def bstrip (bs : List ℕ) : List ℕ :=
  let ws : List ℕ := [9, 10, 11, 12, 13, 32]
  ((bs.dropWhile ws.contains).reverse.dropWhile ws.contains).reverse

/-- Preamble namedtuple of ScopeArray.get_preamble (DS4000.py lines 74-83):
fields in the order format, mode, points, count, xincrement, xorigin,
xreference, yincrement, yorigin, yreference. -/
structure Preamble where
  format : ℚ
  mode : ℚ
  points : ℚ
  count : ℚ
  xincrement : ℚ
  xorigin : ℚ
  xreference : ℚ
  yincrement : ℚ
  yorigin : ℚ
  yreference : ℚ
  deriving DecidableEq, Repr

/-- ScopeArray.get_preamble (DS4000.py lines 74-83): the comma-split reply is
splatted into the ten-field namedtuple; any other field count makes the
namedtuple constructor raise TypeError. -/
def get_preamble (fields : List ℚ) : Except PyErr Preamble :=
  match fields with
  | [f, m, p, c, xi, xo, xr, yi, yo, yr] =>
      .ok ⟨f, m, p, c, xi, xo, xr, yi, yo, yr⟩
  | _ => .error .typeError

/-- Python list indexing preamble[i] with IndexError on overflow. -/
def listGet (xs : List ℚ) (i : ℕ) : Except PyErr ℚ :=
  match xs.get? i with
  | some v => .ok v
  | none => .error .indexError

/-- The raw-mode read loop of ScopeArray.get (DS4000.py lines 42-51):
for each of the `fuel` remaining steps, ask `:WAV:STAT?`, read a data
chunk, and break when the status was IDLE; the for-else raises
ValueError("Communication error") when the budget is exhausted. -/
def scopeArrayRawLoop (dev : RigolDevice) : ℕ → ℕ → List ℕ → Except PyErr (List ℕ)
  | 0, _, _ => .error (.valueError "Communication error")
  | fuel + 1, k, acc =>
    let status := dev.statuses k
    let acc := acc ++ dev.chunks k
    if status == "IDLE" then .ok acc
    else scopeArrayRawLoop dev fuel (k + 1) acc

/-- The data acquisition and calibration prefix of ScopeArray.get
(DS4000.py lines 31-65): acquire bytes (raw loop with max_read_step = 10,
set in __init__, or a single normal-mode read), strip the 11-byte header
and surrounding whitespace, parse the preamble, and convert each byte b to
(b - yreference - yorigin) * yincrement. -/
def scopeArrayConvertedData (dev : RigolDevice) (raw : Bool) :
    Except PyErr (List ℚ × Preamble) := do
  let data_bin ← if raw then scopeArrayRawLoop dev 10 0 [] else .ok dev.normChunk
  let data_raw := bstrip (data_bin.drop 11)
  let p ← get_preamble dev.preambleFields
  .ok (data_raw.map (fun b => ((b : ℚ) - p.yreference - p.yorigin) * p.yincrement), p)

/-- ScopeArray.get (DS4000.py lines 31-72).  After the conversion, line 68
evaluates `p.origin`, but the preamble namedtuple has no field named
`origin` (only `xorigin`): Python raises AttributeError there, so the
setpoints and shape are never updated and nothing is returned.  (Were that
fixed, line 72 would still raise NameError: the local name `xincrement`
is never defined in this method.) -/
def scopeArrayGet (dev : RigolDevice) (raw : Bool) : Except PyErr Unit := do
  let _ ← scopeArrayConvertedData dev raw
  .error .attributeError

/-- The raw-mode read loop of DS4000.get_waveform (DS4000.py lines 222-233):
statuses other than IDLE and READ raise ValueError("Communication error")
at once, but when the budget `fuel` is exhausted (every status was READ)
the for loop simply falls through with the data read so far. -/
def getWaveformRawLoop (dev : RigolDevice) : ℕ → ℕ → List ℕ → Except PyErr (List ℕ)
  | 0, _, acc => .ok acc
  | fuel + 1, k, acc =>
    let status := dev.statuses k
    let acc := acc ++ dev.chunks k
    if status == "IDLE" then .ok acc
    else if status == "READ" then getWaveformRawLoop dev fuel (k + 1) acc
    else .error (.valueError "Communication error")

/-- DS4000.get_waveform (DS4000.py lines 208-253): channel bounds check,
acquisition, header strip, then the preamble reply is indexed at 4, 7, 8, 9
for xincrement, yincrement, yorigin, yreference; each byte b becomes
(b - yreference - yorigin) * yincrement and the pair (data, xincrement)
is returned. -/
def get_waveform (dev : RigolDevice) (ch : ℤ) (raw : Bool) (max_read_step : ℕ) :
    Except PyErr (List ℚ × ℚ) := do
  if ch < 1 ∨ ch > 4 then .error (.valueError "Invalid channel number") else
  let data_bin ← if raw then getWaveformRawLoop dev max_read_step 0 [] else .ok dev.normChunk
  let data_raw := bstrip (data_bin.drop 11)
  let xincrement ← listGet dev.preambleFields 4
  let yincrement ← listGet dev.preambleFields 7
  let yorigin ← listGet dev.preambleFields 8
  let yreference ← listGet dev.preambleFields 9
  .ok (data_raw.map (fun b => ((b : ℚ) - yreference - yorigin) * yincrement), xincrement)

/-! ## ZI UHF scope acquisition loop
(src/qcodes/instrument_drivers/ZI/ZIUHF_Scope.py, Scope.get_raw, lines 212-334)

The LabOne session is an oracle per attempt k: `progs k i` is the value of
the i-th `scope.progress()` call of attempt k, `moduleError k` the
truthiness of the error entry of scope.get, `readHasError k`
whether the scope.read() reply of a completed attempt has an error entry,
`readErrorVal k` the truthiness of that entry, and `readData k`
an abstract payload standing for the parsed trace.  Timing is idealised:
each iteration of the inner poll sleeps exactly 0.1 s and everything else
is instantaneous, so the elapsed time after i sleeps is 0.1 * i seconds. -/

structure ZIDev where
  progs : ℕ → ℕ → ℚ
  moduleError : ℕ → Bool
  readHasError : ℕ → Bool
  readErrorVal : ℕ → Bool
  readData : ℕ → ℤ

/-- meas_time of Scope.get_raw (line 256): segs*(duration+deadtime)+1. -/
def measTime (segs : ℕ) (duration deadtime : ℚ) : ℚ :=
  segs * (duration + deadtime) + 1

/-- The inner progress poll of Scope.get_raw (lines 293-300), fueled.
At state i the last progress read was `progs i`; while it is < 1 the loop
reads `progs (i+1)`, sleeps 0.1 s, and breaks with timedout = true once
the elapsed time 0.1*(i+1) exceeds the coarse timeout 20*mt+1.  Returns
(timedout, number of sleeps); `none` is fuel exhaustion (shown unreachable
for fuel ≥ natBound mt + 2 below). -/
def innerPoll (progs : ℕ → ℚ) (mt : ℚ) : ℕ → ℕ → Option (Bool × ℕ)
  | 0, _ => none
  | fuel + 1, i =>
    if progs i < 1 then
      if (1 / 10 : ℚ) * ((i : ℚ) + 1) > 20 * mt + 1 then some (true, i + 1)
      else innerPoll progs mt fuel (i + 1)
    else some (false, i)

/-- Iteration bound of the inner poll: the timeout check fires as soon as
0.1*(i+1) > 20*mt+1, i.e. i+1 > 200*mt+10. -/
def natBound (mt : ℚ) : ℕ := (Int.ceil (200 * mt + 10)).toNat

/-- Outcome of the get_raw retry loop: a returned payload (None,None is
`.ok none`), a raised exception, or fuel exhaustion of the model. -/
inductive ZIRes where
  | ok (d : Option ℤ)
  | err (e : PyErr)
  | fuelOut
  deriving DecidableEq, Repr

/-- The retry loop of Scope.get_raw (lines 259-334) with num_retries = 10:
`while (zi_error or timedout) and error_counter < num_retries`.  Each
attempt runs the inner poll; on a clean poll (no timeout, module error
flag clear) the data is read and zi_error is re-evaluated from the read
reply, without touching error_counter; otherwise data is set to the
(None, None) pair and error_counter is incremented, and reaching
num_retries raises RuntimeError inside the loop body. -/
def ziLoop (dev : ZIDev) (mt : ℚ) (innerFuel : ℕ) :
    ℕ → ℕ → ℕ → Bool → Bool → Option ℤ → ZIRes
  | 0, _, _, _, _, _ => .fuelOut
  | fuel + 1, k, ec, zi_error, timedout, data =>
    if (zi_error || timedout) ∧ ec < 10 then
      match innerPoll (dev.progs k) mt innerFuel 0 with
      | none => .fuelOut
      | some (tdo, _) =>
        let ziErr1 := dev.moduleError k
        if !(tdo || ziErr1) then
          let ziErr2 := if dev.readHasError k then dev.readErrorVal k else ziErr1
          ziLoop dev mt innerFuel fuel (k + 1) ec ziErr2 tdo (some (dev.readData k))
        else
          let ec' := ec + 1
          if 10 ≤ ec' then .err .runtimeError
          else ziLoop dev mt innerFuel fuel (k + 1) ec' ziErr1 tdo none
    else .ok data

/-- True when the loop result is a normal return of acquired data or the
RuntimeError raised after exhausting the retries. -/
def ziSettled : ZIRes → Bool
  | .ok (some _) => true
  | .err .runtimeError => true
  | _ => false

/-- An attempt timed out when its inner poll reports timedout = true. -/
def attemptTimedOut (dev : ZIDev) (mt : ℚ) (innerFuel k : ℕ) : Bool :=
  match innerPoll (dev.progs k) mt innerFuel 0 with
  | some (t, _) => t
  | none => false

/-! ## Scope ready flag (ZIUHF_Scope.py)

`scope_correctly_built` is written in exactly two places: prepare_scope
sets it to True (line 210) and _scope_setter sets it to False (line 704);
Scope.get_raw checks it (lines 227-229) and raises ValueError when it is
not truthy.  The attribute is never initialised in __init__, so before the
first write it does not exist (modelled as `none`; reading it then raises
AttributeError). -/

inductive ScopeEvent where
  | prepareScope
  | scopeParamWrite (setting : String)
  | getRawCall
  deriving DecidableEq, Repr

/-- Effect of one event on the scope_correctly_built attribute. -/
def flagAfter : Option Bool → ScopeEvent → Option Bool
  | _, .prepareScope => some true
  | _, .scopeParamWrite _ => some false
  | f, .getRawCall => f

/-- The flag after a whole event history, starting uninitialised. -/
def flagAfterTrace (tr : List ScopeEvent) : Option Bool :=
  tr.foldl flagAfter none

/-- The guard at the top of Scope.get_raw (lines 227-229). -/
def getRawFlagCheck : Option Bool → Except PyErr Unit
  | some true => .ok ()
  | some false => .error (.valueError "Scope not properly prepared. Please run prepare_scope before measuring.")
  | none => .error .attributeError

/-- Whether an event writes the flag. -/
def ScopeEvent.writesFlag : ScopeEvent → Bool
  | .prepareScope => true
  | .scopeParamWrite _ => true
  | .getRawCall => false

/-- The most recent flag-writing event of the history is prepare_scope. -/
def lastWriterIsPrepare (tr : List ScopeEvent) : Bool :=
  (tr.filter ScopeEvent.writesFlag).getLast? == some .prepareScope

/-! ## scope_samplingrate setter
(ZIUHF_Scope.py, _scope_setter special case setsamplingrate, lines 737-750)

State: the device registers /scopes/0/time (sampling-rate code) and
/scopes/0/length, plus the driver-side caches written through _save_val
and the scope_correctly_built flag.  The val_mapping of scope_samplingrate is
the 17-entry table _samplingrate_codes (lines 425-441); setsamplingrate
recovers the frequency as number * SRtranslation[unit] from the display
string.  We model the composite map code ↦ frequency in Hz directly. -/

structure UHFScopeState where
  deviceTime : ℕ
  deviceLength : ℕ
  cachedDuration : ℚ
  cachedLength : ℤ
  scope_correctly_built : Bool
  deriving DecidableEq, Repr

/-- Sampling frequency (Hz) for each code of _samplingrate_codes. -/
def SRofCode : ℕ → Option ℚ
  | 0 => some (18 / 10 * 10 ^ 9)
  | 1 => some (900 * 10 ^ 6)
  | 2 => some (450 * 10 ^ 6)
  | 3 => some (225 * 10 ^ 6)
  | 4 => some (113 * 10 ^ 6)
  | 5 => some (562 / 10 * 10 ^ 6)
  | 6 => some (281 / 10 * 10 ^ 6)
  | 7 => some (14 * 10 ^ 6)
  | 8 => some (703 / 100 * 10 ^ 6)
  | 9 => some (35 / 10 * 10 ^ 6)
  | 10 => some (175 / 100 * 10 ^ 6)
  | 11 => some (880 * 10 ^ 3)
  | 12 => some (440 * 10 ^ 3)
  | 13 => some (220 * 10 ^ 3)
  | 14 => some (110 * 10 ^ 3)
  | 15 => some (549 / 10 * 10 ^ 3)
  | 16 => some (275 / 10 * 10 ^ 3)
  | _ => none

/-- scope_duration.get(): _scope_getter special case getduration
(lines 783-789): N / SR with N read from the device length register and
SR from the device sampling-rate register. -/
def scopeDurationGet (st : UHFScopeState) : Except PyErr ℚ :=
  match SRofCode st.deviceTime with
  | some sr => .ok ((st.deviceLength : ℚ) / sr)
  | none => .error .keyError

/-- Setting scope_samplingrate to code `value`: _scope_setter first clears
scope_correctly_built (line 704), then setsamplingrate (lines 737-750)
computes newSR from the code table, oldSR via scope_samplingrate.get()
(device register through the val_mapping, KeyError outside 0..16),
oldduration via scope_duration.get(), caches
newduration = oldduration * oldSR / newSR through _save_val, and writes
the code to /scopes/0/time.  daq.sync() has no model state. -/
def setsamplingrate (st : UHFScopeState) (value : ℕ) : Except PyErr UHFScopeState := do
  let st := { st with scope_correctly_built := false }
  let newSR ← match SRofCode value with
    | some sr => .ok sr
    | none => .error .keyError
  let oldSR ← match SRofCode st.deviceTime with
    | some sr => .ok sr
    | none => .error .keyError
  let oldduration ← scopeDurationGet st
  let newduration := oldduration * oldSR / newSR
  .ok { st with cachedDuration := newduration, deviceTime := value }

/-! ## Auxiliary output channel parameter
(src/qcodes/instrument_drivers/ZI/private/ZILI_AUXOutputChannel.py,
lines 32-42)

The channel parameter is declared with set_parser = lambda x: x-1,
get_parser = lambda x: x+1 and vals = vals.Ints(0, 7). -/

/-- set_parser of the aux output channel parameter: x ↦ x - 1. -/
def auxChannelSetParse (x : ℤ) : ℤ := x - 1

/-- get_parser of the aux output channel parameter: x ↦ x + 1. -/
def auxChannelGetParse (x : ℤ) : ℤ := x + 1

/-- vals.Ints(0, 7) of the channel parameter. -/
def auxChannelVals (x : ℤ) : Bool := 0 ≤ x && x ≤ 7

/-- Modelled from the spec: the measurement-framework parameter pipeline is
outside this repository (spec section 3 describes a parameter as a named
device setting with optional numeric bounds); on set it validates the user
value, applies set_parser and writes the result to the device register. -/
def auxChannelSet (v : ℤ) : Except PyErr ℤ :=
  if auxChannelVals v then .ok (auxChannelSetParse v)
  else .error (.valueError "Invalid value")

/-- Modelled from the spec: on get the framework reads the device register
and applies get_parser. -/
def auxChannelGet (reg : ℤ) : ℤ := auxChannelGetParse reg

/-! ## ZI lock-in signal outputs
(src/qcodes/instrument_drivers/ZI/private/ZILI_generic.py)

In this class `_setter` (lines 274-299) and `_getter` (lines 301-327) are
factories taking (module, number, setting, value_type) and returning a
bound partial; their `function_table` is keyed by the `ValueType` enum.
`_sigout_setter` (line 452) and `_sigout_getter` (line 480) still call
them with the superseded five/four positional-argument convention
(module, number, mode, setting and value), so the transmission call of
`_sigout_setter` raises TypeError (five arguments for four parameters)
and `_sigout_getter` binds value_type to the setting string, making the
`function_table[value_type]` lookup raise KeyError.  Python values are
dynamically typed, so the misplaced argument is modelled by a small
dynamic value type `PyVal`. -/

/-- The ValueType enum of ZILI_generic.py (lines 25-28). -/
inductive ValueType where
  | INT
  | DOUBLE
  | SAMPLE
  deriving DecidableEq, Repr

/-- Dynamic Python value, as far as these call sites need. -/
inductive PyVal where
  | int (n : ℤ)
  | str (s : String)
  | vt (t : ValueType)
  deriving DecidableEq, Repr

/-- Amplitude definition of signal_outputN_ampdef: Vpk, Vrms or dBm. -/
inductive AmpDef where
  | Vpk
  | Vrms
  | dBm
  deriving DecidableEq, Repr

/-- amp_val_dict of amp_valid (lines 380-383): the conversion applied to
the user value on set. -/
noncomputable def ampValDictSet : AmpDef → ℝ → ℝ
  | .Vpk, v => v
  | .Vrms, v => v * Real.sqrt 2
  | .dBm, v => (10 : ℝ) ^ ((v - 10) / 20)

/-- amp_val_dict of _sigout_getter (lines 492-495): the inverse conversion
applied on get. -/
noncomputable def ampValDictGet : AmpDef → ℝ → ℝ
  | .Vpk, v => v
  | .Vrms, v => v / Real.sqrt 2
  | .dBm, v => 10 + 20 * Real.logb 10 v

/-- Python round(x, 3).  (Python rounds half to even while the Mathlib round
rounds half up; the difference is immaterial here, this code path is
unreachable behind the KeyError shown below.) -/
noncomputable def round3 (x : ℝ) : ℝ := ((round (x * 1000) : ℤ) : ℝ) / 1000

section SignalOutputModel

attribute [local instance] Classical.propDecidable

/-- The LabOne data server, as read by a well-typed _getter partial:
value of a node, given the ValueType of the get function and the node path. -/
structure LIDev where
  read : ValueType → String → ℝ

/-- Driver-side configuration that differs between the two concrete
lock-ins: ZIUHFLI adds the signal_outputN_autorange and
signal_outputN_imp50 parameters (ZIUHFLI.py lines 112-128) while ZIHF2LI
has neither; rangeHasVals is hasattr of the range parameter and "vals", true for
ZIHF2LI where __init__ assigns vals = Enum(0.01, 0.1, 1, 10)
(ZIHF2LI.py line 90); ampNode is the amplitude node string
amplitudes/out_map[sigout] of _create_parameters (line 232), e.g.
amplitudes/6 for ZIHF2LI output 1 and amplitudes/3 for ZIUHFLI output 1. -/
structure LIConfig where
  hasAutorange : Bool
  hasImp50 : Bool
  rangeHasVals : Bool
  ampNode : String

/-- State the validators read: the device id and the cached
signal_outputN_ampdef value (its parameter has get_cmd=None and an
initial_value, so reading it is a cache hit), plus the nominal range used
by the (unreachable) correction arithmetic of _sigout_getter. -/
structure LIState where
  device : String
  ampdefOf : ℕ → AmpDef
  rangeOf : ℕ → ℝ

/-- Python setting.split("/")[0]: the first path component (the prefix of
the setting string before the first slash). -/
def firstComponent (s : String) : String :=
  String.mk (s.toList.takeWhile (fun c => c != '/'))

/-- Python str.startswith, on the character lists. -/
def strStarts (p s : String) : Bool :=
  p.toList.isPrefixOf s.toList

/-- String form of a dynamic value, for the node-path f-string. -/
def PyVal.fmt : PyVal → String
  | .int n => toString n
  | .str s => s
  | .vt _ => "ValueType"

/-- The _getter factory (ZILI_generic.py lines 301-327) collapsed with the
call of the partial it returns: `function_table[value_type]` raises
KeyError unless value_type is a ValueType member; otherwise the bound get
function is applied to the node path. -/
noncomputable def LI_getter (dev : LIDev) (device module : String) (number : ℤ)
    (setting : PyVal) (value_type : PyVal) : Except PyErr ℝ :=
  match value_type with
  | .vt t =>
      .ok (dev.read t ("/" ++ device ++ "/" ++ module ++ "/" ++ toString (number - 1)
            ++ "/" ++ setting.fmt))
  | _ => .error .keyError

/-- _sigout_getter (ZILI_generic.py lines 465-498).  Line 480 is
`value = self._getter("sigouts", number, mode, setting)`: the third
parameter of _getter is `setting` and its fourth `value_type`, so this call binds
setting := mode and value_type := the setting string, and the
function_table lookup raises KeyError.  The remaining lines (482-496) are
dead code behind that error; they are kept for fidelity, with the range
parameter read (itself a recursive call of this broken getter) modelled
as the nominal range of the state. -/
noncomputable def sigout_getter (dev : LIDev) (st : LIState) (number : ℕ)
    (mode : ℤ) (setting : String) : Except PyErr ℝ := do
  let value ← LI_getter dev st.device "sigouts" number (.int mode) (.str setting)
  let setbase := firstComponent setting
  let value := if strStarts "amplitudes" setbase || setbase == "offset" then
      value * st.rangeOf number
    else value
  let value := if strStarts "amplitudes" setbase then
      ampValDictGet (st.ampdefOf number) value
    else value
  .ok value

/-- amp_valid of _sigout_setter (ZILI_generic.py lines 358-389): read the
amplitude definition, then autorange (parameter absent on ZIHF2LI, giving
"OFF"), then either the fixed imp50 table (autorange on) or the range
parameter; reject when the converted value exceeds the range (the chained
comparison `-range_val < conv(value) > range_val`), else rescale and
convert.  Every parameter read goes through the broken _sigout_getter. -/
noncomputable def amp_valid (cfg : LIConfig) (dev : LIDev) (st : LIState)
    (number : ℕ) (value : ℝ) : Except PyErr ℝ := do
  let ampdef := st.ampdefOf number
  let autorange_val ←
    if cfg.hasAutorange then
      (sigout_getter dev st number 0 "autorange").map
        (fun x => if x = 1 then "ON" else "OFF")
    else .ok "OFF"
  let range_val ←
    if autorange_val == "ON" then
      (sigout_getter dev st number 0 "imp50").map
        (fun x => if x = 1 then (0.75 : ℝ) else 1.5)
    else
      (sigout_getter dev st number 1 "range").map round3
  if -range_val < ampValDictSet ampdef value ∧ ampValDictSet ampdef value > range_val then
    .error (.valueError "Signal Output: Amplitude too high for chosen range.")
  else
    .ok (ampValDictSet ampdef (value / range_val))

/-- offset_valid of _sigout_setter (ZILI_generic.py lines 391-401): read
range and amplitude (both through the broken getter), reject when
offset + amplitude exceeds the range, else rescale by the range. -/
noncomputable def offset_valid (cfg : LIConfig) (dev : LIDev) (st : LIState)
    (number : ℕ) (ampNode : String) (value : ℝ) : Except PyErr ℝ := do
  let range_val ← (sigout_getter dev st number 1 "range").map round3
  let amp_val ← (sigout_getter dev st number 1 ampNode).map round3
  if -range_val < value + amp_val ∧ value + amp_val > range_val then
    .error (.valueError "Signal Output: Offset too high for chosen range.")
  else
    .ok (value / range_val)

/-- range_valid of _sigout_setter (ZILI_generic.py lines 403-423): skip
when the range parameter has a vals attribute; otherwise read autorange
(a KeyError on the parameter dict for ZIHF2LI, which never defines it)
and imp50, reject when autorange is on, and reject values outside
[1.5, 0.15] (imp50 off) or [0.75, 0.075] (imp50 on). -/
noncomputable def range_valid (cfg : LIConfig) (dev : LIDev) (st : LIState)
    (number : ℕ) (value : ℝ) : Except PyErr Unit := do
  if cfg.rangeHasVals then .ok () else
  let autorange_val ←
    if cfg.hasAutorange then
      (sigout_getter dev st number 0 "autorange").map
        (fun x => if x = 1 then "ON" else "OFF")
    else .error .keyError
  let imp50_val ←
    if cfg.hasImp50 then
      (sigout_getter dev st number 0 "imp50").map (fun x => x = 1)
    else .error .keyError
  if autorange_val == "ON" then
    .error (.valueError "Signal Output : Cannot set range as autorange is turned on.")
  else if value ∈ (if imp50_val then [(0.75 : ℝ), 0.075] else [1.5, 0.15]) then
    .ok ()
  else
    .error (.valueError "Signal Output: Choose a valid range.")

/-- _sigout_setter (ZILI_generic.py lines 342-463).  The dynamic
validation dispatches on the first path component of the setting;
afterwards line 452 is `self._setter("sigouts", number, mode, setting,
value)`, which passes five positional arguments to the four-parameter
factory `_setter` (line 274), so Python raises TypeError there, before
any daq.setInt/setDouble call.  The second component of the result lists
the SDK set calls issued (node, value): none is ever reached. -/
noncomputable def sigout_setter (cfg : LIConfig) (dev : LIDev) (st : LIState)
    (number : ℕ) (mode : ℤ) (setting : String) (value : ℝ) :
    Except PyErr Unit × List (String × ℝ) :=
  let setbase := firstComponent setting
  let validated : Except PyErr Unit :=
    if setbase == "range" then range_valid cfg dev st number value
    else if setbase == "amplitudes" then (amp_valid cfg dev st number value).map (fun _ => ())
    else if setbase == "offset" then
      (offset_valid cfg dev st number cfg.ampNode value).map (fun _ => ())
    else .ok ()
  match validated with
  | .error e => (.error e, [])
  | .ok _ => (.error .typeError, [])

end SignalOutputModel

/-! ## Helper lemmas -/

/-- If the status never reads IDLE, the ScopeArray raw loop exhausts its
budget and raises ValueError("Communication error"). -/
lemma scopeArrayRawLoop_never_idle (dev : RigolDevice)
    (h : ∀ k, dev.statuses k ≠ "IDLE") :
    ∀ fuel k acc, scopeArrayRawLoop dev fuel k acc
      = .error (.valueError "Communication error") := by
  intro fuel
  induction fuel with
  | zero => intro k acc; rfl
  | succ n ih =>
      intro k acc
      rw [scopeArrayRawLoop]
      have hne : (dev.statuses k == "IDLE") = false := by
        simp [h k]
      simp only [hne, Bool.false_eq_true, if_false]
      exact ih (k + 1) (acc ++ dev.chunks k)

/-- If the status always reads READ, the get_waveform raw loop falls
through its budget and returns the accumulated data without raising. -/
lemma getWaveformRawLoop_all_read (dev : RigolDevice)
    (h : ∀ k, dev.statuses k = "READ") :
    ∀ fuel k acc, ∃ l, getWaveformRawLoop dev fuel k acc = .ok l := by
  intro fuel
  induction fuel with
  | zero => intro k acc; exact ⟨acc, rfl⟩
  | succ n ih =>
      intro k acc
      rw [getWaveformRawLoop]
      have h1 : (dev.statuses k == "IDLE") = false := by simp [h k]
      have h2 : (dev.statuses k == "READ") = true := by simp [h k]
      simp only [h1, h2, Bool.false_eq_true, if_false, if_true]
      exact ih (k + 1) (acc ++ dev.chunks k)

/-- Arithmetic core of the inner-poll bound: while the timeout check has
not fired, the sleep count stays below natBound. -/
lemma succ_le_natBound {mt : ℚ} {i : ℕ} (h : ((i : ℚ) + 1) ≤ 200 * mt + 10) :
    i + 1 ≤ natBound mt := by
  have hc : (200 * mt + 10 : ℚ) ≤ ((⌈(200 * mt + 10 : ℚ)⌉ : ℤ) : ℚ) := Int.le_ceil _
  have h2 : (((i + 1 : ℕ) : ℤ) : ℚ) ≤ ((⌈(200 * mt + 10 : ℚ)⌉ : ℤ) : ℚ) := by
    push_cast
    linarith
  have h3 : ((i + 1 : ℕ) : ℤ) ≤ ⌈(200 * mt + 10 : ℚ)⌉ := by exact_mod_cast h2
  have h0 : (0 : ℤ) ≤ ⌈(200 * mt + 10 : ℚ)⌉ := le_trans (by positivity) h3
  have h4 := Int.toNat_of_nonneg h0
  unfold natBound
  omega

/-- The timeout check guarantees the inner poll cannot run out of fuel
natBound mt + 2 when started at sleep count 0 (more generally, when the
fuel exceeds the remaining budget). -/
lemma innerPoll_ne_none (progs : ℕ → ℚ) (mt : ℚ) :
    ∀ fuel i, 1 ≤ fuel → natBound mt + 1 ≤ fuel + i →
      innerPoll progs mt fuel i ≠ none := by
  intro fuel
  induction fuel with
  | zero => intro i h1 _; exact absurd h1 (by omega)
  | succ n ih =>
      intro i h1 h2
      rw [innerPoll]
      split
      · split
        · simp
        · rename_i hprog hto
          have hle : ((i : ℚ) + 1) ≤ 200 * mt + 10 := by
            rw [not_lt] at hto
            linarith
          have hb := succ_le_natBound hle
          have hn : 1 ≤ n := by omega
          exact ih (i + 1) hn (by omega)
      · simp

/-- The sleep count of a completed inner poll is bounded by fuel plus the
starting index. -/
lemma innerPoll_sleeps_le (progs : ℕ → ℚ) (mt : ℚ) :
    ∀ fuel i t s, innerPoll progs mt fuel i = some (t, s) → s ≤ fuel + i := by
  intro fuel
  induction fuel with
  | zero => intro i t s h; exact absurd h (by simp [innerPoll])
  | succ n ih =>
      intro i t s h
      rw [innerPoll] at h
      split at h
      · split at h
        · injection h with h'
          injection h' with h1 h2
          omega
        · have := ih (i + 1) t s h
          omega
      · injection h with h'
        injection h' with h1 h2
        omega

/-- If every attempt fails (inner poll times out or the module error flag
is set), then from any loop state with a pending error and fewer than 10
counted failures, the loop raises RuntimeError within the remaining retry
budget. -/
lemma ziLoop_all_fail (dev : ZIDev) (mt : ℚ)
    (hz : ∀ k, attemptTimedOut dev mt (natBound mt + 2) k = true
          ∨ dev.moduleError k = true) :
    ∀ fuel k ec zi t d, ec < 10 → (zi || t) = true → 10 - ec ≤ fuel →
      ziLoop dev mt (natBound mt + 2) fuel k ec zi t d = .err .runtimeError := by
  intro fuel
  induction fuel with
  | zero => intro k ec zi t d hec _ hf; exact absurd hf (by omega)
  | succ n ih =>
      intro k ec zi t d hec hzt hf
      rw [ziLoop, if_pos ⟨hzt, hec⟩]
      have hne := innerPoll_ne_none (dev.progs k) mt (natBound mt + 2) 0
        (by omega) (by omega)
      obtain ⟨⟨tdo, s⟩, heq⟩ : ∃ p, innerPoll (dev.progs k) mt (natBound mt + 2) 0 = some p := by
        cases hip : innerPoll (dev.progs k) mt (natBound mt + 2) 0 with
        | none => exact absurd hip hne
        | some p => exact ⟨p, rfl⟩
      rw [heq]
      have hfail : (tdo || dev.moduleError k) = true := by
        rcases hz k with h | h
        · unfold attemptTimedOut at h
          rw [heq] at h
          simp at h
          simp [h]
        · simp [h]
      simp only [hfail, Bool.not_true, Bool.false_eq_true, if_false]
      by_cases hec' : 10 ≤ ec + 1
      · rw [if_pos hec']
      · rw [if_neg hec']
        exact ih (k + 1) (ec + 1) (dev.moduleError k) tdo none
          (by omega) (by rw [Bool.or_comm]; exact hfail) (by omega)

/-- If no completed read carries the error flag, the loop settles (returns
acquired data or raises RuntimeError) within the retry budget, from any
state with at most 9 counted failures where missing data implies a pending
error. -/
lemma ziLoop_settles (dev : ZIDev) (mt : ℚ)
    (hRead : ∀ k, dev.readHasError k = true → dev.readErrorVal k = false) :
    ∀ fuel k ec zi t d, ec ≤ 9 → 11 ≤ fuel + ec → (d = none → (zi || t) = true) →
      ziSettled (ziLoop dev mt (natBound mt + 2) fuel k ec zi t d) = true := by
  intro fuel
  induction fuel with
  | zero => intro k ec zi t d hec hf _; exact absurd hf (by omega)
  | succ n ih =>
      intro k ec zi t d hec hf hd
      rw [ziLoop]
      by_cases hcond : (zi || t) = true ∧ ec < 10
      · rw [if_pos hcond]
        have hne := innerPoll_ne_none (dev.progs k) mt (natBound mt + 2) 0
          (by omega) (by omega)
        obtain ⟨⟨tdo, s⟩, heq⟩ : ∃ p, innerPoll (dev.progs k) mt (natBound mt + 2) 0 = some p := by
          cases hip : innerPoll (dev.progs k) mt (natBound mt + 2) 0 with
          | none => exact absurd hip hne
          | some p => exact ⟨p, rfl⟩
        rw [heq]
        by_cases hsucc : (tdo || dev.moduleError k) = true
        · simp only [hsucc, Bool.not_true, Bool.false_eq_true, if_false]
          by_cases hec' : 10 ≤ ec + 1
          · rw [if_pos hec']; rfl
          · rw [if_neg hec']
            exact ih (k + 1) (ec + 1) (dev.moduleError k) tdo none
              (by omega) (by omega)
              (fun _ => by rw [Bool.or_comm]; exact hsucc)
        · have hsucc' : (tdo || dev.moduleError k) = false := by
            simpa using hsucc
          simp only [hsucc', Bool.not_false, if_true]
          have hz2 : (if dev.readHasError k then dev.readErrorVal k else dev.moduleError k) = false := by
            by_cases hre : dev.readHasError k = true
            · simp [hre, hRead k hre]
            · have : dev.moduleError k = false := by
                rcases Bool.or_eq_false_iff.mp hsucc' with ⟨_, h2⟩
                exact h2
              simp [hre, this]
          rw [hz2]
          have htdo : tdo = false := (Bool.or_eq_false_iff.mp hsucc').1
          rw [htdo]
          have hn : 1 ≤ n := by omega
          obtain ⟨m, rfl⟩ : ∃ m, n = m + 1 := ⟨n - 1, by omega⟩
          rw [ziLoop]
          rw [if_neg (by simp)]
          rfl
      · rw [if_neg hcond]
        have hzt : (zi || t) = false := by
          rcases Bool.eq_false_or_eq_true (zi || t) with h | h
          · exact absurd ⟨h, by omega⟩ hcond
          · exact h
        obtain ⟨x, rfl⟩ : ∃ x, d = some x := by
          cases d with
          | none =>
              have := hd rfl
              rw [this] at hzt
              exact absurd hzt (by simp)
          | some x => exact ⟨x, rfl⟩
        rfl

/-- The flag reads true after a history exactly when its most recent
flag-writing event was prepare_scope. -/
lemma lastWriter_of_flag_true :
    ∀ tr : List ScopeEvent, flagAfterTrace tr = some true →
      lastWriterIsPrepare tr = true := by
  intro tr
  induction tr using List.reverseRecOn with
  | nil => intro h; simp [flagAfterTrace] at h
  | append_singleton xs e ih =>
      intro h
      rw [flagAfterTrace, List.foldl_append] at h
      simp only [List.foldl_cons, List.foldl_nil] at h
      cases e with
      | prepareScope =>
          unfold lastWriterIsPrepare
          rw [List.filter_append]
          simp [ScopeEvent.writesFlag]
      | scopeParamWrite s =>
          simp [flagAfter] at h
      | getRawCall =>
          have hxs : flagAfterTrace xs = some true := h
          have := ih hxs
          unfold lastWriterIsPrepare at this ⊢
          rw [List.filter_append]
          simpa [ScopeEvent.writesFlag] using this

/-! ## Claims -/

/-- Device for the C1 counterexample: every :WAV:STAT? reply is READ
(the device never reports completion), every read delivers five bytes 65. -/
def rdevAllRead : RigolDevice :=
  { statuses := fun _ => "READ"
    chunks := fun _ => [65, 65, 65, 65, 65]
    normChunk := []
    preambleFields := [0, 0, 100, 1, 1/2, 0, 0, 1/10, 2, 3] }

/-- Claim C1, counterexample.  The claim says a raw acquisition whose
device never reports completion raises ValueError("Communication error")
once the retry budget is exhausted and returns no data.  For
DS4000.get_waveform with a read budget of 3 (the parameter whose default
is 100) and a status that stays READ forever, the for loop exhausts the
budget and the function falls through WITHOUT raising, returning the four
calibrated bytes that survive the header strip, together with the
xincrement: no error is raised and data is returned. -/
theorem claim_C1_counterexample :
    get_waveform rdevAllRead 1 true 3 = .ok ([6, 6, 6, 6], 1/2) := by
  have h1 : ¬ (("READ" : String) = "IDLE") := by decide
  have hb : (([9, 10, 11, 12, 13, 32] : List ℕ).contains 65) = false := by rfl
  norm_num [get_waveform, getWaveformRawLoop, rdevAllRead, bstrip, listGet,
    Bind.bind, Except.bind, List.dropWhile, hb, h1]

/-- Claim C1 (corrected).  (a) ScopeArray.get in raw mode raises
ValueError("Communication error") after its max_read_step = 10 iterations
when the status never reads IDLE, returning no data; (b) but
DS4000.get_waveform returns normally (with the partial data) when every
status is READ; (c) get_waveform raises ValueError("Communication error")
immediately on a status that is neither IDLE nor READ; (d) the ZI UHF
scope loop raises RuntimeError after num_retries = 10 failed attempts
when every attempt times out or has the module error flag set. -/
theorem claim_C1_amended
    (rdevA rdevB rdevC : RigolDevice) (zdev : ZIDev) (nB nC : ℕ) (mt : ℚ)
    (hA : ∀ k, rdevA.statuses k ≠ "IDLE")
    (hB : ∀ k, rdevB.statuses k = "READ")
    (hBp : 10 ≤ rdevB.preambleFields.length)
    (hC1 : rdevC.statuses 0 ≠ "IDLE")
    (hC2 : rdevC.statuses 0 ≠ "READ")
    (hz : ∀ k, attemptTimedOut zdev mt (natBound mt + 2) k = true
          ∨ zdev.moduleError k = true) :
    scopeArrayGet rdevA true = .error (.valueError "Communication error")
    ∧ exceptIsOk (get_waveform rdevB 1 true nB) = true
    ∧ get_waveform rdevC 1 true (nC + 1) = .error (.valueError "Communication error")
    ∧ ziLoop zdev mt (natBound mt + 2) 11 0 0 true false none = .err .runtimeError := by
  refine ⟨?_, ?_, ?_, ?_⟩
  · have hl := scopeArrayRawLoop_never_idle rdevA hA 10 0 []
    unfold scopeArrayGet scopeArrayConvertedData
    rw [hl]
    rfl
  · obtain ⟨l, hl⟩ := getWaveformRawLoop_all_read rdevB hB nB 0 []
    obtain ⟨v4, hv4⟩ : ∃ v, rdevB.preambleFields.get? 4 = some v :=
      ⟨_, List.get?_eq_get (by omega)⟩
    obtain ⟨v7, hv7⟩ : ∃ v, rdevB.preambleFields.get? 7 = some v :=
      ⟨_, List.get?_eq_get (by omega)⟩
    obtain ⟨v8, hv8⟩ : ∃ v, rdevB.preambleFields.get? 8 = some v :=
      ⟨_, List.get?_eq_get (by omega)⟩
    obtain ⟨v9, hv9⟩ : ∃ v, rdevB.preambleFields.get? 9 = some v :=
      ⟨_, List.get?_eq_get (by omega)⟩
    unfold get_waveform listGet
    rw [if_neg (by norm_num), hl, hv4, hv7, hv8, hv9]
    rfl
  · have h1 : (rdevC.statuses 0 == "IDLE") = false := by simp [hC1]
    have h2 : (rdevC.statuses 0 == "READ") = false := by simp [hC2]
    unfold get_waveform
    rw [if_neg (by norm_num), getWaveformRawLoop]
    simp only [h1, h2, Bool.false_eq_true, if_false]
    rfl
  · exact ziLoop_all_fail zdev mt hz 11 0 0 true false none
      (by omega) rfl (by omega)

/-- Witness devices for C1: a status stuck at BUSY, a status stuck at
READ, a status that is neither, and a ZI device whose module error flag
is always set. -/
def rdevBusy : RigolDevice :=
  { statuses := fun _ => "BUSY", chunks := fun _ => [], normChunk := [],
    preambleFields := [] }

def rdevReadW : RigolDevice :=
  { statuses := fun _ => "READ", chunks := fun _ => [], normChunk := [],
    preambleFields := [0, 0, 0, 0, 0, 0, 0, 0, 0, 0] }

def rdevOther : RigolDevice :=
  { statuses := fun _ => "DONE", chunks := fun _ => [], normChunk := [],
    preambleFields := [] }

def zdevFailW : ZIDev :=
  { progs := fun _ _ => 1, moduleError := fun _ => true,
    readHasError := fun _ => false, readErrorVal := fun _ => false,
    readData := fun _ => 0 }

/-- Witness for claim C1: the amended statement evaluated on the concrete
witness devices. -/
theorem claim_C1_witness :
    scopeArrayGet rdevBusy true = .error (.valueError "Communication error")
    ∧ exceptIsOk (get_waveform rdevReadW 1 true 5) = true
    ∧ get_waveform rdevOther 1 true 1 = .error (.valueError "Communication error")
    ∧ ziLoop zdevFailW 1 (natBound 1 + 2) 11 0 0 true false none = .err .runtimeError :=
  claim_C1_amended rdevBusy rdevReadW rdevOther zdevFailW 5 0 1
    (fun _ => by simp [rdevBusy]) (fun _ => rfl) (by simp [rdevReadW])
    (by simp [rdevOther]) (by simp [rdevOther]) (fun _ => Or.inr rfl)

/-- Device for the C5 counterexample: every attempt completes at once
(progress 1, no timeout, module error flag clear), but every scope.read()
reply carries a set error flag. -/
def zdevReadErr : ZIDev :=
  { progs := fun _ _ => 1, moduleError := fun _ => false,
    readHasError := fun _ => true, readErrorVal := fun _ => true,
    readData := fun _ => 7 }

/-- Claim C5, counterexample.  When each attempt polls to completion
without timeout and with a clear module error flag, but the scope.read()
reply reports an error, the loop body re-enters without ever incrementing
error_counter (the increment sits only in the timeout/module-error
branch), so the while loop never exits: after a budget of 50 outer
iterations the model is still running (fuelOut), contradicting the claim
that the outer loop performs at most num_retries = 10 attempts and then
returns or raises. -/
theorem claim_C5_counterexample :
    ziLoop zdevReadErr 1 (natBound 1 + 2) 50 0 0 true false none = .fuelOut := by
  decide

/-- Claim C5 (corrected).  Termination holds under the proviso that no
cleanly completed attempt returns read data carrying the error flag:
(a) the inner progress poll with fuel natBound mt + 2 never runs out of
fuel (it exits by progress or by the coarse 20*meas_time+1 timeout);
(b) its sleep count (0.1 s each) is bounded by natBound mt + 2;
(c) if every scope.read() of a clean attempt reports no error, the retry
loop settles within fuel 11: it returns acquired data or raises
RuntimeError after at most num_retries = 10 failed attempts, each failed
attempt incrementing the error counter. -/
theorem claim_C5_amended (dev : ZIDev) (mt : ℚ)
    (hRead : ∀ k, dev.readHasError k = true → dev.readErrorVal k = false) :
    (∀ k, innerPoll (dev.progs k) mt (natBound mt + 2) 0 ≠ none)
    ∧ (∀ k t s, innerPoll (dev.progs k) mt (natBound mt + 2) 0 = some (t, s) →
        s ≤ natBound mt + 2)
    ∧ ziSettled (ziLoop dev mt (natBound mt + 2) 11 0 0 true false none) = true := by
  refine ⟨?_, ?_, ?_⟩
  · intro k
    exact innerPoll_ne_none (dev.progs k) mt (natBound mt + 2) 0 (by omega) (by omega)
  · intro k t s h
    have := innerPoll_sleeps_le (dev.progs k) mt (natBound mt + 2) 0 t s h
    omega
  · exact ziLoop_settles dev mt hRead 11 0 0 true false none (by omega) (by omega)
      (fun _ => rfl)

/-- Witness device for C5: acquisition succeeds on the first attempt and
no read reports an error. -/
def zdevClean : ZIDev :=
  { progs := fun _ _ => 1, moduleError := fun _ => false,
    readHasError := fun _ => false, readErrorVal := fun _ => false,
    readData := fun _ => 7 }

/-- Witness for claim C5: the amended statement evaluated at the clean
witness device with meas_time 1. -/
theorem claim_C5_witness :
    (∀ k, innerPoll (zdevClean.progs k) 1 (natBound 1 + 2) 0 ≠ none)
    ∧ (∀ k t s, innerPoll (zdevClean.progs k) 1 (natBound 1 + 2) 0 = some (t, s) →
        s ≤ natBound 1 + 2)
    ∧ ziSettled (ziLoop zdevClean 1 (natBound 1 + 2) 11 0 0 true false none) = true :=
  claim_C5_amended zdevClean 1 (fun k h => by simp [zdevClean] at h)

/-- Device for C4: a normal-mode acquisition delivering an 11-byte header
followed by the bytes 100, 120, 140, with preamble fields
(format 0, mode 0, points 3, count 1, xincrement 1/2, xorigin 1/4,
xreference 0, yincrement 1/10, yorigin 2, yreference 3). -/
def rdev4 : RigolDevice :=
  { statuses := fun _ => "IDLE"
    chunks := fun _ => []
    normChunk := [35, 35, 35, 35, 35, 35, 35, 35, 35, 35, 35, 100, 120, 140]
    preambleFields := [0, 0, 3, 1, 1/2, 1/4, 0, 1/10, 2, 3] }

/-- Claim C4 (code_bug), evaluation at the failing input.  The preamble
is parsed as the comma-separated 10-tuple in the claimed field order, and
DS4000.get_waveform converts each byte b to
(b - yreference - yorigin) * yincrement and returns the preamble field at
index 4 (xincrement) alongside the data.  But the other acquisition path,
ScopeArray.get, crashes with AttributeError (it evaluates p.origin, a
field the preamble namedtuple does not have) before returning anything,
so for it no x-axis step is ever returned alongside the data. -/
theorem claim_C4_eval :
    get_preamble rdev4.preambleFields = .ok ⟨0, 0, 3, 1, 1/2, 1/4, 0, 1/10, 2, 3⟩
    ∧ get_waveform rdev4 1 false 100 = .ok ([19/2, 23/2, 27/2], 1/2)
    ∧ scopeArrayGet rdev4 false = .error .attributeError := by
  refine ⟨rfl, ?_, rfl⟩
  have hb : (([9, 10, 11, 12, 13, 32] : List ℕ).contains 35) = false := by rfl
  have hb2 : (([9, 10, 11, 12, 13, 32] : List ℕ).contains 100) = false := by rfl
  have hb3 : (([9, 10, 11, 12, 13, 32] : List ℕ).contains 120) = false := by rfl
  have hb4 : (([9, 10, 11, 12, 13, 32] : List ℕ).contains 140) = false := by rfl
  norm_num [get_waveform, rdev4, bstrip, listGet, Bind.bind, Except.bind,
    List.dropWhile, List.get?, hb, hb2, hb3, hb4]

/-- Device for C8: a normal-mode ScopeArray acquisition delivering two
data bytes 50 and 75 after the header, while the preamble announces
points = 1400. -/
def rdev8 : RigolDevice :=
  { statuses := fun _ => "IDLE"
    chunks := fun _ => []
    normChunk := [35, 35, 35, 35, 35, 35, 35, 35, 35, 35, 35, 50, 75]
    preambleFields := [0, 0, 1400, 1, 1/1000, 0, 0, 1/25, 1, 2] }

/-- Claim C8 (code_bug), evaluation at the failing input.  In non-raw
mode ScopeArray.get computes the calibrated data (here two samples, whose
length is the received byte count, not the preamble points field 1400),
but then crashes with AttributeError while building the time axis: line
68 reads p.origin, a field the preamble namedtuple does not have, so the
method never returns the claimed (data, xincrement) pair and never
updates shape or setpoints. -/
theorem claim_C8_eval :
    scopeArrayConvertedData rdev8 false
      = .ok ([47/25, 72/25], ⟨0, 0, 1400, 1, 1/1000, 0, 0, 1/25, 1, 2⟩)
    ∧ scopeArrayGet rdev8 false = .error .attributeError := by
  refine ⟨?_, rfl⟩
  have hb : (([9, 10, 11, 12, 13, 32] : List ℕ).contains 35) = false := by rfl
  have hb2 : (([9, 10, 11, 12, 13, 32] : List ℕ).contains 50) = false := by rfl
  have hb3 : (([9, 10, 11, 12, 13, 32] : List ℕ).contains 75) = false := by rfl
  norm_num [scopeArrayConvertedData, get_preamble, rdev8, bstrip,
    Bind.bind, Except.bind, List.dropWhile, hb, hb2, hb3]

/-- A LabOne session whose every node reads 0. -/
noncomputable def liDev0 : LIDev := ⟨fun _ _ => 0⟩

/-- Lock-in state: ampdef Vpk on every output, nominal range 1.5 V. -/
noncomputable def liStVpk : LIState := ⟨"dev1234", fun _ => .Vpk, fun _ => 1.5⟩

/-- The ZIHF2LI configuration: no autorange or imp50 parameters, the range
parameter has a vals validator (Enum(0.01, 0.1, 1, 10), ZIHF2LI.py line
90), amplitude node amplitudes/6 (out_map 1 maps to 6). -/
def cfgHF2LI : LIConfig := ⟨false, false, true, "amplitudes/6"⟩

/-- The ZIUHFLI configuration: autorange and imp50 parameters exist
(ZIUHFLI.py lines 112-128), the range parameter is given no vals
validator in __init__, amplitude node amplitudes/3 (out_map 1 maps
to 3). -/
def cfgUHFLI : LIConfig := ⟨true, true, false, "amplitudes/3"⟩

/-- Claim C2 (code_bug), evaluation at the failing input.  Setting
signal_output1_amplitude to 2 V with ampdef Vpk while the range is 1.5 V
should, per the claim, raise ValueError before any SDK set call.  The
code instead raises KeyError: amp_valid reads the range parameter through
_sigout_getter, whose `self._getter("sigouts", number, mode, setting)`
call binds value_type to the setting string, so function_table[value_type]
raises KeyError before the amplitude check is ever reached.  No SDK set
call is issued (second component), but the exception is a KeyError from
the broken getter convention, not the claimed ValueError, and it is
raised for valid values as well. -/
theorem claim_C2_eval :
    sigout_setter cfgHF2LI liDev0 liStVpk 0 1 "amplitudes/6" 2
      = (.error .keyError, []) := rfl

/-- Claim C3 (code_bug), evaluation at the failing input.  Reading any
signal output parameter (here signal_output1_range) through
_sigout_getter raises KeyError: the `self._getter("sigouts", number,
mode, setting)` call uses the superseded argument convention, binding
value_type to the setting string, and the function_table lookup fails.
So reading an amplitude or offset back after setting it never returns a
value at all, and the claimed set/get round trip cannot happen. -/
theorem claim_C3_eval :
    sigout_getter liDev0 liStVpk 0 1 "range" = .error .keyError := rfl

/-- Claim C6 (code_bug), evaluation at the failing input.  Setting
signal_output1_range to 1.5 with the 50 Ohm setting off — a value the
claim (and the error message of the code itself, listing [1.5, 0.15]) says is
accepted and transmitted — raises KeyError on the ZIUHFLI configuration:
range_valid reads the autorange parameter through the broken
_sigout_getter before it ever consults the legal-range table.  (On
ZIHF2LI the range parameter has the validator Enum(0.01, 0.1, 1, 10), so
range_valid returns early and the transmission call itself raises
TypeError; either way no value is accepted and transmitted.) -/
theorem claim_C6_eval :
    sigout_setter cfgUHFLI liDev0 liStVpk 0 1 "range" (3/2)
      = (.error .keyError, [])
    ∧ sigout_setter cfgHF2LI liDev0 liStVpk 0 1 "range" (3/2)
      = (.error .typeError, []) :=
  ⟨rfl, rfl⟩

/-- Claim C7 (confirmed).  Among the flag-writing operations, only
prepare_scope sets scope_correctly_built to True; every scope-parameter
write through _scope_setter resets it to False; Scope.get_raw raises
ValueError whenever the flag is False; and whenever the get_raw guard
passes after an event history, the most recent flag-writing event of that
history was prepare_scope — an acquisition never follows a scope-setting
change unless prepare_scope ran again in between. -/
theorem claim_C7 (f : Option Bool) (e : ScopeEvent) (s : String)
    (tr : List ScopeEvent) :
    (e.writesFlag = true → (flagAfter f e = some true ↔ e = .prepareScope))
    ∧ flagAfter f (.scopeParamWrite s) = some false
    ∧ getRawFlagCheck (some false)
        = .error (.valueError "Scope not properly prepared. Please run prepare_scope before measuring.")
    ∧ (getRawFlagCheck (flagAfterTrace tr) = .ok () →
        lastWriterIsPrepare tr = true) := by
  refine ⟨?_, rfl, rfl, ?_⟩
  · intro hw
    cases e with
    | prepareScope => simp [flagAfter]
    | scopeParamWrite s2 => simp [flagAfter]
    | getRawCall => simp [ScopeEvent.writesFlag] at hw
  · intro h
    apply lastWriter_of_flag_true
    cases hft : flagAfterTrace tr with
    | none => rw [hft] at h; exact absurd h (by simp [getRawFlagCheck])
    | some b =>
        cases b with
        | false => rw [hft] at h; exact absurd h (by simp [getRawFlagCheck])
        | true => rfl

/-- Witness for claim C7: after writing a scope parameter, running
prepare_scope and then acquiring, the guard passes and the most recent
flag writer is indeed prepare_scope. -/
theorem claim_C7_witness :
    lastWriterIsPrepare
      [ScopeEvent.scopeParamWrite "length", ScopeEvent.prepareScope,
        ScopeEvent.getRawCall] = true :=
  (claim_C7 none ScopeEvent.prepareScope "length"
    [ScopeEvent.scopeParamWrite "length", ScopeEvent.prepareScope,
      ScopeEvent.getRawCall]).2.2.2 (by decide)

/-- Scope state for the C9 counterexample: sampling-rate code 0
(1.80 GHz), length 4096, the ready flag set by a previous prepare. -/
def st9 : UHFScopeState := ⟨0, 4096, 1, 4096, true⟩

/-- Claim C9, counterexample.  Setting scope_samplingrate does not change
ONLY the sampling-rate register and the cached duration: _scope_setter
first resets scope_correctly_built to False (ZIUHF_Scope.py line 704), so
a state whose ready flag was True comes back with it False. -/
theorem claim_C9_counterexample :
    st9.scope_correctly_built = true
    ∧ (setsamplingrate st9 1).map (fun s => s.scope_correctly_built)
      = .ok false :=
  ⟨rfl, rfl⟩

/-- Claim C9 (corrected).  Setting scope_samplingrate to a valid code
changes the device sampling-rate register to that code, replaces the
cached scope_duration by its old (live-computed) value rescaled by
oldSR/newSR, and ALSO resets scope_correctly_built to False; the device
length register and the cached scope_length are left unchanged. -/
theorem claim_C9_amended (st : UHFScopeState) (value : ℕ) (newSR oldSR : ℚ)
    (hNew : SRofCode value = some newSR)
    (hOld : SRofCode st.deviceTime = some oldSR) :
    setsamplingrate st value = .ok
      { st with
        scope_correctly_built := false
        deviceTime := value
        cachedDuration := (st.deviceLength : ℚ) / oldSR * oldSR / newSR } := by
  unfold setsamplingrate scopeDurationGet
  simp only [hNew, hOld]
  rfl

/-- Witness for claim C9: the amended statement at the concrete state
st9, switching from code 0 (1.80 GHz) to code 1 (900 MHz). -/
theorem claim_C9_witness :
    setsamplingrate st9 1 = .ok
      { st9 with
        scope_correctly_built := false
        deviceTime := 1
        cachedDuration := (st9.deviceLength : ℚ) / (18/10 * 10^9) * (18/10 * 10^9)
          / (900 * 10^6) } :=
  claim_C9_amended st9 1 (900 * 10^6) (18/10 * 10^9) rfl rfl

/-- Claim C10 (confirmed).  The parsers of the aux output channel parameter,
x ↦ x-1 (set) and x ↦ x+1 (get) are mutually inverse; for any value the
validator Ints(0, 7) accepts, setting writes v-1 to the device register,
an immediate get returns v, and the register value lies in -1..6. -/
theorem claim_C10 (v reg : ℤ) (h : auxChannelVals v = true) :
    auxChannelGetParse (auxChannelSetParse v) = v
    ∧ auxChannelSetParse (auxChannelGetParse reg) = reg
    ∧ auxChannelSet v = .ok (v - 1)
    ∧ auxChannelGet (v - 1) = v
    ∧ (-1 ≤ v - 1 ∧ v - 1 ≤ 6) := by
  have hb : 0 ≤ v ∧ v ≤ 7 := by
    unfold auxChannelVals at h
    constructor
    · have := Bool.and_elim_left h
      exact of_decide_eq_true this
    · have := Bool.and_elim_right h
      exact of_decide_eq_true this
  refine ⟨?_, ?_, ?_, ?_, ?_⟩
  · unfold auxChannelGetParse auxChannelSetParse; omega
  · unfold auxChannelSetParse auxChannelGetParse; omega
  · unfold auxChannelSet
    rw [if_pos h]
    rfl
  · unfold auxChannelGet auxChannelGetParse; omega
  · omega

/-- Witness for claim C10: the statement at v = 3 (register value 2) and
register read-back 5. -/
theorem claim_C10_witness :
    auxChannelVals 3 = true
    ∧ (auxChannelGetParse (auxChannelSetParse 3) = 3
      ∧ auxChannelSetParse (auxChannelGetParse 5) = 5
      ∧ auxChannelSet 3 = .ok (3 - 1)
      ∧ auxChannelGet (3 - 1) = 3
      ∧ (-1 ≤ (3 : ℤ) - 1 ∧ (3 : ℤ) - 1 ≤ 6)) :=
  ⟨by decide, claim_C10 3 5 (by decide)⟩

end QcodesDrivers
